import Mathlib

/-!
Shallow embedding of src/main.py (noozGPT backend): a single-endpoint
service that assembles geolocation, weather, time-of-day, news and a
stubbed transit status, and feeds them to a generative model.

External HTTP calls are modelled by their observable outcomes: a call
either raises a transport exception or yields a response with a status
code and a body that may or may not parse as JSON.  Python runtime
errors (KeyError, AttributeError, json decode errors, the pytz
UnknownTimeZoneError, ...) are modelled by the `PyErr` error type of
`Except`: a value `Except.error e` is an exception propagating out of
the Python function, `Except.ok v` is a normal return.
-/

set_option autoImplicit false

namespace NoozGPT

/-- JSON values.  Numbers are carried by their decimal literal: no claim
computes on numeric values, and the code only passes them through and
formats them into strings. -/
inductive Json where
  | null
  | bool (b : Bool)
  | num (lit : String)
  | str (s : String)
  | arr (items : List Json)
  | obj (fields : List (String × Json))
  deriving Repr, Inhabited

/-- Python runtime errors that the embedded code can raise. -/
inductive PyErr where
  /-- an httpx transport exception raised by `client.get` -/
  | transportError
  /-- `response.json()` raised because the body is not valid JSON -/
  | jsonDecodeError
  /-- `d[k]` on a dict lacking the key -/
  | keyError
  /-- `.get` attribute access on a non-dict value -/
  | attributeError
  /-- iterating a non-iterable value -/
  | typeError
  /-- `pytz.timezone` on an unknown timezone name -/
  | unknownTimeZoneError
  /-- any exception out of the generative-model call -/
  | genError
  deriving Repr, DecidableEq

/-- First-match lookup in a JSON object's field list (Python dicts have
unique keys; responses with duplicate keys keep the last in Python, but
no claim depends on duplicate keys, and `lookup` is first-match). -/
def jlookup (fields : List (String × Json)) (k : String) : Option Json :=
  match fields with
  | [] => none
  | (k', v) :: rest => if k' = k then some v else jlookup rest k

/-- Python `d.get(k, default)`: total on dicts, raises AttributeError on
anything else. -/
def Json.getD (j : Json) (k : String) (default : Json) : Except PyErr Json :=
  match j with
  | .obj fields => .ok ((jlookup fields k).getD default)
  | _ => .error .attributeError

/-- Python `d[k]`: KeyError when the key is missing, TypeError (or
similar) when `d` is not a dict. -/
def Json.index (j : Json) (k : String) : Except PyErr Json :=
  match j with
  | .obj fields =>
    match jlookup fields k with
    | some v => .ok v
    | none => .error .keyError
  | _ => .error .typeError

/-- Python `==` comparison of a JSON value with a string literal: true
exactly when the value is that string. -/
def Json.eqStr (j : Json) (s : String) : Bool :=
  match j with
  | .str t => t = s
  | _ => false

/-- Python `for x in v`: lists yield their items, strings their
characters, dicts their keys; other values raise TypeError. -/
def pyIter (j : Json) : Except PyErr (List Json) :=
  match j with
  | .arr items => .ok items
  | .str s => .ok (s.toList.map fun c => Json.str c.toString)
  | .obj fields => .ok (fields.map fun p => Json.str p.1)
  | _ => .error .typeError

mutual

/-- Python `str()` of a JSON value, as used by f-string interpolation. -/
def pyStr : Json → String
  | .null => "None"
  | .bool b => cond b "True" "False"
  | .num lit => lit
  | .str s => s
  | .arr items => "[" ++ pyReprList items ++ "]"
  | .obj fields => "\x7b" ++ pyReprFields fields ++ "\x7d"

/-- Python `repr()` of a JSON value (used for container elements). -/
def pyRepr : Json → String
  | .null => "None"
  | .bool b => cond b "True" "False"
  | .num lit => lit
  | .str s => "\x27" ++ s ++ "\x27"
  | .arr items => "[" ++ pyReprList items ++ "]"
  | .obj fields => "\x7b" ++ pyReprFields fields ++ "\x7d"

def pyReprList : List Json → String
  | [] => ""
  | [x] => pyRepr x
  | x :: rest => pyRepr x ++ ", " ++ pyReprList rest

def pyReprFields : List (String × Json) → String
  | [] => ""
  | [(k, v)] => "\x27" ++ k ++ "\x27: " ++ pyRepr v
  | (k, v) :: rest => "\x27" ++ k ++ "\x27: " ++ pyRepr v ++ ", " ++ pyReprFields rest

end

/-- Outcome of one `client.get(url)` call together with the behaviour of
`response.json()` on its body: either the transport raised, or a
response arrived with a status code and a body (`none` when the body is
not valid JSON, so that `response.json()` raises). -/
inductive FetchResult where
  | exn
  | resp (status : Nat) (body : Option Json)
  deriving Repr

/-- Location record built by `get_location_by_ip` (fields are the raw
JSON values; `data.get(k)` yields Python `None` = `Json.null` when a
field is missing). -/
structure Location where
  city : Json
  region : Json
  country : Json
  lat : Json
  lon : Json
  deriving Repr

/-- `get_location_by_ip` from src/main.py.  The code awaits
`client.get`, calls `response.json()` without checking the status code,
and branches on `data['status']`.  There is no try/except: transport
and parse errors propagate. -/
def get_location_by_ip (r : FetchResult) : Except PyErr (Option Location) :=
  match r with
  | .exn => .error .transportError
  | .resp _ body =>
    match body with
    | none => .error .jsonDecodeError
    | some data => do
      let st ← data.index "status"
      if st.eqStr "success" then
        let city ← data.getD "city" .null
        let region ← data.getD "regionName" .null
        let country ← data.getD "country" .null
        let lat ← data.getD "lat" .null
        let lon ← data.getD "lon" .null
        return some ⟨city, region, country, lat, lon⟩
      else
        return none

/-- Weather record built by `get_weather`. -/
structure Weather where
  condition : Json
  temperature_c : Json
  humidity : Json
  wind_kph : Json
  deriving Repr

/-- `get_weather` from src/main.py: on status 200 parses the body and
extracts fields with sentinel defaults; on any other status returns
None.  No try/except: transport and parse errors propagate. -/
def get_weather (r : FetchResult) : Except PyErr (Option Weather) :=
  match r with
  | .exn => .error .transportError
  | .resp status body =>
    if status = 200 then
      match body with
      | none => .error .jsonDecodeError
      | some data => do
        let current ← data.getD "current" (.obj [])
        let conditionObj ← current.getD "condition" (.obj [])
        let condition ← conditionObj.getD "text" (.str "Unknown")
        let temp_c ← current.getD "temp_c" (.str "N/A")
        let humidity ← current.getD "humidity" (.str "N/A")
        let wind_kph ← current.getD "wind_kph" (.str "N/A")
        return some ⟨condition, temp_c, humidity, wind_kph⟩
    else
      .ok none

/-- News item built by `get_news`. -/
structure NewsItem where
  title : Json
  source : Json
  url : Json
  deriving Repr

/-- One iteration of the article list comprehension in `get_news`. -/
def newsArticle (article : Json) : Except PyErr NewsItem := do
  let title ← article.getD "title" .null
  let sourceObj ← article.getD "source" (.obj [])
  let sourceName ← sourceObj.getD "name" .null
  let url ← article.getD "url" .null
  return ⟨title, sourceName, url⟩

/-- `get_news` from src/main.py: on status 200 maps each article to
{title, source name, url}; on any other status returns None.  No
try/except: transport and parse errors propagate. -/
def get_news (r : FetchResult) : Except PyErr (Option (List NewsItem)) :=
  match r with
  | .exn => .error .transportError
  | .resp status body =>
    if status = 200 then
      match body with
      | none => .error .jsonDecodeError
      | some data => do
        let articlesVal ← data.getD "articles" (.arr [])
        let articles ← pyIter articlesVal
        let items ← articles.mapM newsArticle
        return some items
    else
      .ok none

/-- Transit status record. -/
structure TransitStatus where
  status : String
  note : String
  deriving Repr, DecidableEq

/-- `get_public_transport_status` from src/main.py: a stub that ignores
its location argument (used only for logging) and always returns the
same record. -/
def get_public_transport_status (_location : Location) : TransitStatus :=
  { status := "Normal service"
    note := "No delays reported on main bus and metro lines." }

end NoozGPT

namespace NoozGPT

/-- An IANA timezone object as produced by `pytz.timezone`. -/
structure PyTz where
  name : String
  deriving Repr, DecidableEq

/-- The local wall-clock reading `datetime.now(tz)` restricted to the
two attributes the code consults: `now.hour` and `now.strftime("%A")`
(the English weekday name). -/
structure LocalTime where
  hour : Nat
  weekday : String
  deriving Repr, DecidableEq

/-- Time context record built by `get_time_context`. -/
structure TimeContext where
  hour : Nat
  weekday : String
  time_period : String
  is_weekend : Bool
  deriving Repr, DecidableEq

/-- `get_time_context` from src/main.py.  `lookupTz` models the pytz
timezone database consulted by `pytz.timezone`, which raises
UnknownTimeZoneError on names not in the database; `now` models the
clock reading `datetime.now(tz)` in a given timezone.  The default
argument of the Python signature is `"Asia/Kolkata"`. -/
def get_time_context (lookupTz : String → Option PyTz) (now : PyTz → LocalTime)
    (timezone_str : String) : Except PyErr TimeContext :=
  match lookupTz timezone_str with
  | none => .error .unknownTimeZoneError
  | some tz =>
    let t := now tz
    let hour := t.hour
    let weekday := t.weekday
    let time_period :=
      if 7 ≤ hour ∧ hour ≤ 10 then "morning rush hour"
      else if 16 ≤ hour ∧ hour ≤ 19 then "evening rush hour"
      else "off-peak hours"
    let is_weekend : Bool := weekday ∈ ["Saturday", "Sunday"]
    .ok { hour := hour, weekday := weekday, time_period := time_period,
          is_weekend := is_weekend }

/-- The default timezone argument of `get_time_context`. -/
def defaultTimezone : String := "Asia/Kolkata"

/-- The leading section of the prompt in `generate_excuse_text`: the
triple-quoted f-string through "Recent news headlines:".  The
caller-supplied role is interpolated here.  The "Â°C" byte sequence is
exactly as it appears in the source file. -/
def promptHeader (location : Location) (weather : Weather) (time_info : TimeContext)
    (transport_status : TransitStatus) (role : Json) : String :=
  "\nYou are a witty personal assistant. Generate a short, casual, believable excuse for being late as a "
    ++ pyStr role ++ " based on this info:\n\nLocation: "
    ++ pyStr location.city ++ ", " ++ pyStr location.region ++ ", " ++ pyStr location.country
    ++ "\nWeather: " ++ pyStr weather.condition ++ ", Temp: " ++ pyStr weather.temperature_c
    ++ "Â°C, Humidity: " ++ pyStr weather.humidity ++ "%, Wind: " ++ pyStr weather.wind_kph
    ++ " kph\nTime: " ++ time_info.weekday ++ ", " ++ time_info.time_period
    ++ " (Hour: " ++ toString time_info.hour ++ ")\nPublic transport status: "
    ++ transport_status.status ++ ". Note: " ++ transport_status.note
    ++ "\nRecent news headlines:\n"

/-- One line of the numbered headline list:
`f"{i}. {article['title']} (Source: {article['source']})\n"`. -/
def headlineLine (i : Nat) (article : NewsItem) : String :=
  toString i ++ ". " ++ pyStr article.title ++ " (Source: " ++ pyStr article.source ++ ")\n"

/-- The `for i, article in enumerate(news_headlines, 1)` loop of
`generate_excuse_text`, accumulating into `prompt`. -/
def headlineLoop (i : Nat) (articles : List NewsItem) (prompt : String) : String :=
  match articles with
  | [] => prompt
  | article :: rest => headlineLoop (i + 1) rest (prompt ++ headlineLine i article)

/-- The fixed instruction tail appended after the headline list.  It
mentions "ur role" literally but interpolates nothing. -/
def promptTail : String :=
  "\nMake the excuse for being late based on ur role,also makei it based on news,time,wheather if it is valid and be human.\nExcuse:\n"

/-- The full prompt assembled by `generate_excuse_text` before the
generative-model call. -/
def buildPrompt (location : Location) (weather : Weather) (time_info : TimeContext)
    (news_headlines : List NewsItem) (transport_status : TransitStatus) (role : Json) : String :=
  headlineLoop 1 news_headlines
    (promptHeader location weather time_info transport_status role) ++ promptTail

/-- The fixed fallback sentence returned when the generative-model call
fails. -/
def fallbackExcuse : String :=
  "Sorry, I couldn\x27t come up with a good excuse right now."

/-- `generate_excuse_text` from src/main.py.  `genModel` models the
Gemini call `model.generate_content(prompt)` followed by the `.text`
accessor: `.ok t` is a response whose text is `t`, `.error _` is any
exception out of that call (transport errors, empty or invalid
responses).  The try/except converts every failure into the fallback
sentence; a successful text is stripped of surrounding whitespace. -/
def generate_excuse_text (location : Location) (weather : Weather) (time_info : TimeContext)
    (news_headlines : List NewsItem) (transport_status : TransitStatus) (role : Json)
    (genModel : String → Except PyErr String) : String :=
  let prompt := buildPrompt location weather time_info news_headlines transport_status role
  match genModel prompt with
  | .ok text => text.trim
  | .error _ => fallbackExcuse

end NoozGPT

namespace NoozGPT

/-- The per-request environment of the `/generateExcuse` handler:
the outcome of `await request.json()` (`none` when the body is absent
or not valid JSON, so the await raises), the transport-layer client
address, and the behaviour of each external service for this request.
`locService` is a function of the queried address (it appears in the
URL), `weatherService` of the lat/lon query values, `newsService` of
the country code, `genModel` of the submitted prompt. -/
structure World where
  bodyJson : Option Json
  clientHost : String
  locService : String → FetchResult
  weatherService : Json → Json → FetchResult
  newsService : String → FetchResult
  genModel : String → Except PyErr String
  lookupTz : String → Option PyTz
  now : PyTz → LocalTime

/-- Which steps of the handler ran, and with which address the
geolocation service was queried. -/
structure Trace where
  ipQueried : Option String
  weatherCalled : Bool
  newsCalled : Bool
  genCalled : Bool
  deriving Repr, DecidableEq

/-- Trace of a request that raised before reaching the geolocation
step. -/
def noCalls : Trace :=
  { ipQueried := none, weatherCalled := false, newsCalled := false, genCalled := false }

/-- The success-shaped response body of `/generateExcuse`. -/
structure SuccessPayload where
  ip_used : String
  location : Location
  weather : Weather
  time_info : TimeContext
  news_headlines : List NewsItem
  public_transport_status : TransitStatus
  excuse : String
  deriving Repr

/-- A JSON response returned by the handler: either the error-shaped
body built with JSONResponse, or the success-shaped aggregate. -/
inductive Payload where
  | errorPayload (msg : String)
  | success (p : SuccessPayload)
  deriving Repr

/-- Character-list prefix test (Python `str.startswith`), written over
`toList` so that it evaluates inside the kernel. -/
def charsStartWith : List Char → List Char → Bool
  | [], _ => true
  | _ :: _, [] => false
  | p :: ps, c :: cs => p = c && charsStartWith ps cs

/-- The loopback test of the handler:
`ip.startswith("127.") or ip == "::1"`. -/
def isLoopback (ip : String) : Bool :=
  charsStartWith "127.".toList ip.toList || ip = "::1"

/-- The address actually used after the loopback substitution. -/
def substitutedIp (host : String) : String :=
  if isLoopback host then "8.8.8.8" else host

/-- The `/generateExcuse` handler from src/main.py, straight-line.
Returns the response payload (or the exception that escaped) together
with the trace of which steps ran.  The body is read first; `role`
defaults to `"someone"`; the loopback substitution is applied to the
client address before geolocation; geolocation failure and weather
failure short-circuit with error payloads; a news failure result of
None is replaced by the empty list; the generation step always yields
a string. -/
def generate_excuse (w : World) : Except PyErr Payload × Trace :=
  match w.bodyJson with
  | none => (.error .jsonDecodeError, noCalls)
  | some data =>
    match data.getD "role" (.str "someone") with
    | .error e => (.error e, noCalls)
    | .ok role =>
      let ip := substitutedIp w.clientHost
      match get_location_by_ip (w.locService ip) with
      | .error e =>
        (.error e, { noCalls with ipQueried := some ip })
      | .ok none =>
        (.ok (.errorPayload ("Could not determine location from IP: " ++ ip)),
         { noCalls with ipQueried := some ip })
      | .ok (some loc_info) =>
        match get_weather (w.weatherService loc_info.lat loc_info.lon) with
        | .error e =>
          (.error e, { noCalls with ipQueried := some ip, weatherCalled := true })
        | .ok none =>
          (.ok (.errorPayload "Could not fetch weather data"),
           { noCalls with ipQueried := some ip, weatherCalled := true })
        | .ok (some weather) =>
          match get_time_context w.lookupTz w.now defaultTimezone with
          | .error e =>
            (.error e, { noCalls with ipQueried := some ip, weatherCalled := true })
          | .ok time_info =>
            match get_news (w.newsService "us") with
            | .error e =>
              (.error e,
               { ipQueried := some ip, weatherCalled := true, newsCalled := true,
                 genCalled := false })
            | .ok newsOpt =>
              let news := newsOpt.getD []
              let transport_status := get_public_transport_status loc_info
              let excuse :=
                generate_excuse_text loc_info weather time_info news transport_status
                  role w.genModel
              (.ok (.success
                { ip_used := ip, location := loc_info, weather := weather,
                  time_info := time_info, news_headlines := news,
                  public_transport_status := transport_status, excuse := excuse }),
               { ipQueried := some ip, weatherCalled := true, newsCalled := true,
                 genCalled := true })

end NoozGPT

namespace NoozGPT

/-- Unfolding the headline loop: accumulating `headlineLine i a` for the
articles enumerated from `i` appends the numbered lines, in order, to
the accumulator. -/
theorem headlineLoop_eq : ∀ (articles : List NewsItem) (i : Nat) (acc : String),
    headlineLoop i articles acc =
      acc ++ ((articles.enumFrom i).map fun p => headlineLine p.1 p.2).foldr (· ++ ·) "" := by
  intro articles
  induction articles with
  | nil =>
    intro i acc
    simp [headlineLoop]
  | cons a rest ih =>
    intro i acc
    simp [headlineLoop, ih, List.enumFrom, String.append_assoc]

end NoozGPT

namespace NoozGPT

/-- Sample location record used to instantiate theorems with
hypotheses. -/
def sampleLocation : Location :=
  ⟨.str "Kochi", .str "Kerala", .str "India", .num "10.0", .num "76.2"⟩

/-- Sample weather record. -/
def sampleWeather : Weather :=
  ⟨.str "Sunny", .num "30.0", .num "60", .num "10.0"⟩

/-- Sample time context record. -/
def sampleTime : TimeContext :=
  ⟨8, "Monday", "morning rush hour", false⟩

/-- The transit stub's record. -/
def sampleTransit : TransitStatus := get_public_transport_status sampleLocation

/-- C8 (amended): the prompt is the leading section (which embeds the
caller-supplied role together with the location/weather/time/transit
fields), followed by the numbered headline list with indices starting
at 1, each line of the form "i. title (Source: source)", in list order,
followed by the fixed instruction tail.  The role is interpolated into
the leading section, not into the tail. -/
theorem prompt_structure_and_role_position (location : Location) (weather : Weather)
    (time_info : TimeContext) (transport_status : TransitStatus) (role : Json)
    (news_headlines : List NewsItem) :
    buildPrompt location weather time_info news_headlines transport_status role =
      promptHeader location weather time_info transport_status role
        ++ ((news_headlines.enumFrom 1).map fun p => headlineLine p.1 p.2).foldr (· ++ ·) ""
        ++ promptTail ∧
    ∃ a b, promptHeader location weather time_info transport_status role =
      a ++ pyStr role ++ b := by
  constructor
  · rw [buildPrompt, headlineLoop_eq, String.append_assoc]
  · refine ⟨"\nYou are a witty personal assistant. Generate a short, casual, believable excuse for being late as a ",
      " based on this info:\n\nLocation: "
        ++ pyStr location.city ++ ", " ++ pyStr location.region ++ ", " ++ pyStr location.country
        ++ "\nWeather: " ++ pyStr weather.condition ++ ", Temp: " ++ pyStr weather.temperature_c
        ++ "Â°C, Humidity: " ++ pyStr weather.humidity ++ "%, Wind: " ++ pyStr weather.wind_kph
        ++ " kph\nTime: " ++ time_info.weekday ++ ", " ++ time_info.time_period
        ++ " (Hour: " ++ toString time_info.hour ++ ")\nPublic transport status: "
        ++ transport_status.status ++ ". Note: " ++ transport_status.note
        ++ "\nRecent news headlines:\n", ?_⟩
    simp [promptHeader, String.append_assoc]

set_option maxRecDepth 100000 in
/-- C8 counterexample: with role "NOOZROLE" and no headlines, the
prompt is the leading section followed by the fixed tail; the role
string occurs in the prompt but not in the tail, refuting "a fixed
instruction tail that includes the caller-supplied role". -/
theorem fixed_tail_lacks_role :
    buildPrompt sampleLocation sampleWeather sampleTime [] sampleTransit (.str "NOOZROLE") =
      promptHeader sampleLocation sampleWeather sampleTime sampleTransit (.str "NOOZROLE")
        ++ promptTail ∧
    ¬ ("NOOZROLE".toList <:+: promptTail.toList) ∧
    ("NOOZROLE".toList <:+:
      (buildPrompt sampleLocation sampleWeather sampleTime [] sampleTransit
        (.str "NOOZROLE")).toList) := by
  refine ⟨rfl, by decide, by decide⟩

end NoozGPT

namespace NoozGPT

/-- A one-entry pytz database for concrete instantiations: it knows the
default zone and nothing else. -/
def sampleTzDb (s : String) : Option PyTz :=
  if s = "Asia/Kolkata" then some ⟨"Asia/Kolkata"⟩ else none

/-- A fixed clock reading for concrete instantiations: Monday, 8 am. -/
def sampleClock (_tz : PyTz) : LocalTime := ⟨8, "Monday"⟩

/-- C5: whenever `get_time_context` returns a record, its time-period
label is "morning rush hour" iff the hour lies in [7,10], "evening
rush hour" iff it lies in [16,19], "off-peak hours" otherwise, and its
weekend flag is set iff the weekday name is Saturday or Sunday. -/
theorem time_classification_iff (lookupTz : String → Option PyTz)
    (now : PyTz → LocalTime) (s : String) (ctx : TimeContext)
    (hctx : get_time_context lookupTz now s = .ok ctx) :
    (ctx.time_period = "morning rush hour" ↔ 7 ≤ ctx.hour ∧ ctx.hour ≤ 10) ∧
    (ctx.time_period = "evening rush hour" ↔ 16 ≤ ctx.hour ∧ ctx.hour ≤ 19) ∧
    (ctx.time_period = "off-peak hours" ↔
      ¬(7 ≤ ctx.hour ∧ ctx.hour ≤ 10) ∧ ¬(16 ≤ ctx.hour ∧ ctx.hour ≤ 19)) ∧
    (ctx.is_weekend = true ↔ ctx.weekday = "Saturday" ∨ ctx.weekday = "Sunday") := by
  unfold get_time_context at hctx
  cases htz : lookupTz s with
  | none => rw [htz] at hctx; exact absurd hctx (by simp)
  | some tz =>
    rw [htz] at hctx
    simp only [Except.ok.injEq] at hctx
    subst hctx
    refine ⟨?_, ?_, ?_, ?_⟩
    all_goals simp
    all_goals (split_ifs <;> simp_all <;> omega)

/-- C5 witness: at Monday 8 am in the known zone, the classification
record is morning rush hour and not a weekend, and the equivalences
hold at that record. -/
theorem time_classification_iff_witness :
    ((sampleTime.time_period = "morning rush hour" ↔ 7 ≤ sampleTime.hour ∧ sampleTime.hour ≤ 10) ∧
     (sampleTime.time_period = "evening rush hour" ↔ 16 ≤ sampleTime.hour ∧ sampleTime.hour ≤ 19) ∧
     (sampleTime.time_period = "off-peak hours" ↔
       ¬(7 ≤ sampleTime.hour ∧ sampleTime.hour ≤ 10) ∧
       ¬(16 ≤ sampleTime.hour ∧ sampleTime.hour ≤ 19)) ∧
     (sampleTime.is_weekend = true ↔
       sampleTime.weekday = "Saturday" ∨ sampleTime.weekday = "Sunday")) :=
  time_classification_iff sampleTzDb sampleClock "Asia/Kolkata" sampleTime rfl

/-- C9 counterexample: `pytz.timezone` raises UnknownTimeZoneError on a
name the timezone database does not know, so `get_time_context` does
raise for some timezone overrides, refuting "for every optional
timezone override it returns a time-context record and never raises". -/
theorem unknown_timezone_raises :
    get_time_context sampleTzDb sampleClock "Not/AZone" = .error .unknownTimeZoneError ∧
    ∀ ctx, get_time_context sampleTzDb sampleClock "Not/AZone" ≠ .ok ctx := by
  refine ⟨rfl, ?_⟩
  intro ctx h
  rw [show get_time_context sampleTzDb sampleClock "Not/AZone" =
    .error .unknownTimeZoneError from rfl] at h
  exact Except.noConfusion h

/-- C9 (amended): `get_time_context` is a pure function of the clock
reading and performs no I/O in the embedding; for every timezone
override known to the timezone database it returns a time-context
record and never raises.  (An override the database does not know
raises UnknownTimeZoneError.) -/
theorem time_context_total_on_known_tz (lookupTz : String → Option PyTz)
    (now : PyTz → LocalTime) (s : String) (tz : PyTz)
    (htz : lookupTz s = some tz) :
    ∃ ctx : TimeContext, get_time_context lookupTz now s = .ok ctx ∧
      ctx.hour = (now tz).hour ∧ ctx.weekday = (now tz).weekday := by
  unfold get_time_context
  rw [htz]
  exact ⟨_, rfl, rfl, rfl⟩

/-- C9 witness: the default zone is in the database, and the builder
returns the Monday-8am record there. -/
theorem time_context_total_on_known_tz_witness :
    ∃ ctx : TimeContext, get_time_context sampleTzDb sampleClock "Asia/Kolkata" = .ok ctx ∧
      ctx.hour = (sampleClock ⟨"Asia/Kolkata"⟩).hour ∧
      ctx.weekday = (sampleClock ⟨"Asia/Kolkata"⟩).weekday :=
  time_context_total_on_known_tz sampleTzDb sampleClock "Asia/Kolkata" ⟨"Asia/Kolkata"⟩ rfl

end NoozGPT

namespace NoozGPT

/-- Reduction of `Except` bind on a success value (the `do` blocks of
the embedded fetchers). -/
@[simp]
theorem except_bind_ok {ε : Type} {α β : Type} (a : α) (f : α → Except ε β) :
    (Except.ok a : Except ε α) >>= f = f a := rfl

/-- Reduction of `Except` pure. -/
@[simp]
theorem except_pure_eq {ε : Type} {α : Type} (a : α) :
    (pure a : Except ε α) = Except.ok a := rfl

/-- C1 counterexample: a transport failure of the outbound geolocation
call is not converted into the explicit no-location result; the
exception propagates out of `get_location_by_ip`, refuting "on any
transport failure of the outbound call, it returns the explicit no
location result, and no exception escapes to the caller". -/
theorem location_transport_failure_raises :
    get_location_by_ip .exn = .error .transportError ∧
    ∀ v : Option Location, get_location_by_ip .exn ≠ .ok v := by
  refine ⟨rfl, ?_⟩
  intro v h
  rw [show get_location_by_ip .exn = .error .transportError from rfl] at h
  exact Except.noConfusion h

/-- C1 (amended): when the service response carries a status field,
`get_location_by_ip` returns the explicit no-location result on any
non-success status and a location record on a success status; a
transport failure of the outbound call, however, raises and escapes to
the caller. -/
theorem location_resolver_status_and_transport (status : Nat) (data st : Json)
    (hst : data.index "status" = .ok st) :
    (st.eqStr "success" = false →
      get_location_by_ip (.resp status (some data)) = .ok none) ∧
    (st.eqStr "success" = true →
      ∃ loc : Location, get_location_by_ip (.resp status (some data)) = .ok (some loc)) ∧
    get_location_by_ip .exn = .error .transportError := by
  cases data with
  | obj fields =>
    refine ⟨?_, ?_, rfl⟩
    · intro hfail
      simp [get_location_by_ip, hst, hfail]
    · intro hsucc
      refine ⟨⟨(jlookup fields "city").getD .null, (jlookup fields "regionName").getD .null,
        (jlookup fields "country").getD .null, (jlookup fields "lat").getD .null,
        (jlookup fields "lon").getD .null⟩, ?_⟩
      simp [get_location_by_ip, hst, hsucc, Json.getD]
  | null => exact absurd hst (by simp [Json.index])
  | bool b => exact absurd hst (by simp [Json.index])
  | num lit => exact absurd hst (by simp [Json.index])
  | str s => exact absurd hst (by simp [Json.index])
  | arr items => exact absurd hst (by simp [Json.index])

/-- C1 witness: a response with status field "fail" yields the
no-location result, and one with status field "success" yields a
location record. -/
theorem location_resolver_status_and_transport_witness :
    get_location_by_ip (.resp 200 (some (.obj [("status", .str "fail")]))) = .ok none ∧
    ∃ loc : Location,
      get_location_by_ip
        (.resp 200 (some (.obj [("status", .str "success"), ("city", .str "Kochi")]))) =
        .ok (some loc) :=
  ⟨(location_resolver_status_and_transport 200 (.obj [("status", .str "fail")])
      (.str "fail") rfl).1 rfl,
   (location_resolver_status_and_transport 200
      (.obj [("status", .str "success"), ("city", .str "Kochi")])
      (.str "success") rfl).2.1 rfl⟩

/-- C7 counterexample: a 200 response whose body is not valid JSON
makes `response.json()` raise inside `get_weather`, so not every 200
response yields a weather record. -/
theorem weather_200_invalid_body_raises :
    get_weather (.resp 200 none) = .error .jsonDecodeError ∧
    ∀ v : Option Weather, get_weather (.resp 200 none) ≠ .ok v := by
  refine ⟨rfl, ?_⟩
  intro v h
  rw [show get_weather (.resp 200 none) = .error .jsonDecodeError from rfl] at h
  exact Except.noConfusion h

/-- C7 (amended): on any non-200 response `get_weather` returns the
absent no-weather result; on a 200 response whose body is a JSON
object (with object-or-absent "current" and "condition" members) it
returns a record taking each present sub-field from the body and the
sentinel "Unknown"/"N/A" for each missing sub-field.  (A 200 response
whose body is not valid JSON, or whose nested members have unexpected
types, raises instead.) -/
theorem weather_fetcher_sentinels :
    (∀ (status : Nat) (body : Option Json), status ≠ 200 →
      get_weather (.resp status body) = .ok none) ∧
    (∀ (fs cs ds : List (String × Json)),
      (jlookup fs "current").getD (.obj []) = .obj cs →
      (jlookup cs "condition").getD (.obj []) = .obj ds →
      get_weather (.resp 200 (some (.obj fs))) =
        .ok (some
          { condition := (jlookup ds "text").getD (.str "Unknown")
            temperature_c := (jlookup cs "temp_c").getD (.str "N/A")
            humidity := (jlookup cs "humidity").getD (.str "N/A")
            wind_kph := (jlookup cs "wind_kph").getD (.str "N/A") })) := by
  constructor
  · intro status body hstatus
    simp [get_weather, hstatus]
  · intro fs cs ds hcur hcond
    simp [get_weather, Json.getD, hcur, hcond]

/-- C7 witness: status 404 yields the absent result; a 200 body with
only a numeric temperature yields the temperature together with the
sentinels for condition, humidity and wind. -/
theorem weather_fetcher_sentinels_witness :
    get_weather (.resp 404 (some (.obj []))) = .ok none ∧
    get_weather (.resp 200 (some (.obj [("current", .obj [("temp_c", .num "27.0")])]))) =
      .ok (some
        { condition := .str "Unknown", temperature_c := .num "27.0",
          humidity := .str "N/A", wind_kph := .str "N/A" }) :=
  ⟨weather_fetcher_sentinels.1 404 (some (.obj [])) (by decide),
   weather_fetcher_sentinels.2 [("current", .obj [("temp_c", .num "27.0")])]
     [("temp_c", .num "27.0")] [] rfl rfl⟩

end NoozGPT

namespace NoozGPT

/-- A non-200 news response yields the absent result. -/
theorem get_news_non200 (status : Nat) (body : Option Json) (h : status ≠ 200) :
    get_news (.resp status body) = .ok none := by
  simp [get_news, h]

/-- Unfolding the handler on the success path: when the body parsed,
the role was extracted, geolocation and weather produced records, the
timezone lookup succeeded and the news call returned without raising,
the handler returns the aggregate success payload and every step ran. -/
theorem generate_excuse_success_path (w : World) (data role : Json) (loc : Location)
    (wea : Weather) (ti : TimeContext) (newsOpt : Option (List NewsItem))
    (hbody : w.bodyJson = some data)
    (hrole : data.getD "role" (.str "someone") = .ok role)
    (hloc : get_location_by_ip (w.locService (substitutedIp w.clientHost)) = .ok (some loc))
    (hwea : get_weather (w.weatherService loc.lat loc.lon) = .ok (some wea))
    (hti : get_time_context w.lookupTz w.now defaultTimezone = .ok ti)
    (hnews : get_news (w.newsService "us") = .ok newsOpt) :
    generate_excuse w =
      (.ok (.success
        { ip_used := substitutedIp w.clientHost, location := loc, weather := wea,
          time_info := ti, news_headlines := newsOpt.getD [],
          public_transport_status := get_public_transport_status loc,
          excuse := generate_excuse_text loc wea ti (newsOpt.getD [])
            (get_public_transport_status loc) role w.genModel }),
       { ipQueried := some (substitutedIp w.clientHost), weatherCalled := true,
         newsCalled := true, genCalled := true }) := by
  simp [generate_excuse, hbody, hrole, hloc, hwea, hti, hnews]

/-- The request body used by concrete instantiations. -/
def sampleBody : Json := .obj [("role", .str "student")]

/-- A geolocation service answering with a successful lookup. -/
def okLocService (_ip : String) : FetchResult :=
  .resp 200 (some (.obj [("status", .str "success"), ("city", .str "Kochi"),
    ("regionName", .str "Kerala"), ("country", .str "India"),
    ("lat", .num "10.0"), ("lon", .num "76.2")]))

/-- A weather service answering 200 with a full current-conditions
object. -/
def okWeatherService (_lat _lon : Json) : FetchResult :=
  .resp 200 (some (.obj [("current", .obj
    [("condition", .obj [("text", .str "Sunny")]), ("temp_c", .num "30.0"),
     ("humidity", .num "60"), ("wind_kph", .num "10.0")])]))

/-- A news service answering 200 with an empty article list. -/
def okNewsService (_country : String) : FetchResult :=
  .resp 200 (some (.obj [("articles", .arr [])]))

/-- A generative model returning a fixed text with surrounding
whitespace. -/
def okGenModel (_prompt : String) : Except PyErr String := .ok " a witty excuse "

/-- A request environment in which every step succeeds. -/
def baseWorld : World :=
  { bodyJson := some sampleBody, clientHost := "1.2.3.4",
    locService := okLocService, weatherService := okWeatherService,
    newsService := okNewsService, genModel := okGenModel,
    lookupTz := sampleTzDb, now := sampleClock }

/-- C10: when the request body is absent or not valid JSON,
`await request.json()` raises before any fetch step executes: the
caller gets the propagated exception (a transport-level error), not
the error-shaped payload, and no outbound call is made. -/
theorem invalid_body_raises_before_fetches (w : World) (h : w.bodyJson = none) :
    (generate_excuse w).1 = .error .jsonDecodeError ∧
    (generate_excuse w).2 = noCalls ∧
    ∀ p : Payload, (generate_excuse w).1 ≠ .ok p := by
  refine ⟨?_, ?_, ?_⟩ <;> simp [generate_excuse, h]

/-- C10 witness: a request with an unparseable body raises and queries
no service. -/
theorem invalid_body_raises_before_fetches_witness :
    (generate_excuse { baseWorld with bodyJson := none }).1 = .error .jsonDecodeError ∧
    (generate_excuse { baseWorld with bodyJson := none }).2 = noCalls ∧
    ∀ p : Payload, (generate_excuse { baseWorld with bodyJson := none }).1 ≠ .ok p :=
  invalid_body_raises_before_fetches { baseWorld with bodyJson := none } rfl

/-- C4: when the news service answers non-200 (after successful
location, weather and time steps), the request is not aborted: the
success payload is returned whose news_headlines field is the empty
list, and its excuse field is still the generated excuse. -/
theorem news_failure_degrades_to_empty_list (w : World) (data role : Json) (loc : Location)
    (wea : Weather) (ti : TimeContext) (status : Nat) (body : Option Json)
    (hbody : w.bodyJson = some data)
    (hrole : data.getD "role" (.str "someone") = .ok role)
    (hloc : get_location_by_ip (w.locService (substitutedIp w.clientHost)) = .ok (some loc))
    (hwea : get_weather (w.weatherService loc.lat loc.lon) = .ok (some wea))
    (hti : get_time_context w.lookupTz w.now defaultTimezone = .ok ti)
    (hnews : w.newsService "us" = .resp status body) (hstatus : status ≠ 200) :
    ∃ sp : SuccessPayload, (generate_excuse w).1 = .ok (.success sp) ∧
      sp.news_headlines = [] ∧
      sp.excuse = generate_excuse_text loc wea ti [] (get_public_transport_status loc)
        role w.genModel := by
  have hn : get_news (w.newsService "us") = .ok none := by
    rw [hnews]
    exact get_news_non200 status body hstatus
  have hmain := generate_excuse_success_path w data role loc wea ti none
    hbody hrole hloc hwea hti hn
  exact ⟨_, by rw [hmain], rfl, rfl⟩

/-- C4 witness: with the news service answering 500, the handler still
returns the success payload with an empty headline list. -/
theorem news_failure_degrades_to_empty_list_witness :
    ∃ sp : SuccessPayload,
      (generate_excuse { baseWorld with newsService := fun _ => .resp 500 none }).1 =
        .ok (.success sp) ∧
      sp.news_headlines = [] ∧
      sp.excuse = generate_excuse_text
        ⟨.str "Kochi", .str "Kerala", .str "India", .num "10.0", .num "76.2"⟩
        ⟨.str "Sunny", .num "30.0", .num "60", .num "10.0"⟩
        sampleTime [] sampleTransit (.str "student") okGenModel :=
  news_failure_degrades_to_empty_list
    { baseWorld with newsService := fun _ => .resp 500 none }
    sampleBody (.str "student")
    ⟨.str "Kochi", .str "Kerala", .str "India", .num "10.0", .num "76.2"⟩
    ⟨.str "Sunny", .num "30.0", .num "60", .num "10.0"⟩
    sampleTime 500 none rfl rfl rfl rfl rfl rfl (by decide)

end NoozGPT

namespace NoozGPT

/-- C3: whenever the request reaches the generation step, the overall
call returns the success-shaped payload; if the generative-model call
raises (transport error, empty or invalid response), the payload's
excuse field is the fixed fallback sentence, and if it succeeds the
excuse field is the model's text trimmed of surrounding whitespace. -/
theorem excuse_fallback_or_trimmed (w : World) (data role : Json) (loc : Location)
    (wea : Weather) (ti : TimeContext) (newsOpt : Option (List NewsItem))
    (hbody : w.bodyJson = some data)
    (hrole : data.getD "role" (.str "someone") = .ok role)
    (hloc : get_location_by_ip (w.locService (substitutedIp w.clientHost)) = .ok (some loc))
    (hwea : get_weather (w.weatherService loc.lat loc.lon) = .ok (some wea))
    (hti : get_time_context w.lookupTz w.now defaultTimezone = .ok ti)
    (hnews : get_news (w.newsService "us") = .ok newsOpt) :
    ∃ sp : SuccessPayload,
      (generate_excuse w).1 = .ok (.success sp) ∧
      (∀ e : PyErr,
        w.genModel (buildPrompt loc wea ti (newsOpt.getD [])
          (get_public_transport_status loc) role) = .error e →
        sp.excuse = fallbackExcuse) ∧
      (∀ t : String,
        w.genModel (buildPrompt loc wea ti (newsOpt.getD [])
          (get_public_transport_status loc) role) = .ok t →
        sp.excuse = t.trim) := by
  have hmain := generate_excuse_success_path w data role loc wea ti newsOpt
    hbody hrole hloc hwea hti hnews
  refine ⟨_, by rw [hmain], ?_, ?_⟩
  · intro e he
    simp [generate_excuse_text, he]
  · intro t ht
    simp [generate_excuse_text, ht]

/-- C3 witness: with a failing model the excuse is the fallback
sentence; with a successful model text " a witty excuse " the excuse is
its trim. -/
theorem excuse_fallback_or_trimmed_witness :
    (∃ sp : SuccessPayload,
      (generate_excuse { baseWorld with genModel := fun _ => .error .genError }).1 =
        .ok (.success sp) ∧ sp.excuse = fallbackExcuse) ∧
    (∃ sp : SuccessPayload,
      (generate_excuse baseWorld).1 = .ok (.success sp) ∧
      sp.excuse = " a witty excuse ".trim) := by
  constructor
  · obtain ⟨sp, h1, h2, _⟩ := excuse_fallback_or_trimmed
      { baseWorld with genModel := fun _ => .error .genError }
      sampleBody (.str "student")
      ⟨.str "Kochi", .str "Kerala", .str "India", .num "10.0", .num "76.2"⟩
      ⟨.str "Sunny", .num "30.0", .num "60", .num "10.0"⟩
      sampleTime (some []) rfl rfl rfl rfl rfl rfl
    exact ⟨sp, h1, h2 .genError rfl⟩
  · obtain ⟨sp, h1, _, h3⟩ := excuse_fallback_or_trimmed baseWorld
      sampleBody (.str "student")
      ⟨.str "Kochi", .str "Kerala", .str "India", .num "10.0", .num "76.2"⟩
      ⟨.str "Sunny", .num "30.0", .num "60", .num "10.0"⟩
      sampleTime (some []) rfl rfl rfl rfl rfl rfl
    exact ⟨sp, h1, h3 " a witty excuse " rfl⟩

/-- C6: once the body has parsed and the role extracted, the handler
queries the geolocation service with the substituted address: the
fixed public test address 8.8.8.8 when the observed caller address is
loopback (starts with "127." or equals "::1"), the caller address
unchanged otherwise; any success payload reports that same address as
ip_used. -/
theorem loopback_substitution (w : World) (data role : Json)
    (hbody : w.bodyJson = some data)
    (hrole : data.getD "role" (.str "someone") = .ok role) :
    (generate_excuse w).2.ipQueried = some (substitutedIp w.clientHost) ∧
    (∀ sp : SuccessPayload, (generate_excuse w).1 = .ok (.success sp) →
      sp.ip_used = substitutedIp w.clientHost) ∧
    (isLoopback w.clientHost = true → substitutedIp w.clientHost = "8.8.8.8") ∧
    (isLoopback w.clientHost = false → substitutedIp w.clientHost = w.clientHost) := by
  have key : (generate_excuse w).2.ipQueried = some (substitutedIp w.clientHost) ∧
      ∀ sp : SuccessPayload, (generate_excuse w).1 = .ok (.success sp) →
        sp.ip_used = substitutedIp w.clientHost := by
    cases hl : get_location_by_ip (w.locService (substitutedIp w.clientHost)) with
    | error e =>
      exact ⟨by simp [generate_excuse, hbody, hrole, hl],
        fun sp hsp => absurd hsp (by simp [generate_excuse, hbody, hrole, hl])⟩
    | ok o =>
      cases o with
      | none =>
        exact ⟨by simp [generate_excuse, hbody, hrole, hl],
          fun sp hsp => absurd hsp (by simp [generate_excuse, hbody, hrole, hl])⟩
      | some loc =>
        cases hw : get_weather (w.weatherService loc.lat loc.lon) with
        | error e =>
          exact ⟨by simp [generate_excuse, hbody, hrole, hl, hw],
            fun sp hsp => absurd hsp (by simp [generate_excuse, hbody, hrole, hl, hw])⟩
        | ok ow =>
          cases ow with
          | none =>
            exact ⟨by simp [generate_excuse, hbody, hrole, hl, hw],
              fun sp hsp => absurd hsp (by simp [generate_excuse, hbody, hrole, hl, hw])⟩
          | some wea =>
            cases ht : get_time_context w.lookupTz w.now defaultTimezone with
            | error e =>
              exact ⟨by simp [generate_excuse, hbody, hrole, hl, hw, ht],
                fun sp hsp => absurd hsp (by simp [generate_excuse, hbody, hrole, hl, hw, ht])⟩
            | ok ti =>
              cases hn : get_news (w.newsService "us") with
              | error e =>
                exact ⟨by simp [generate_excuse, hbody, hrole, hl, hw, ht, hn],
                  fun sp hsp =>
                    absurd hsp (by simp [generate_excuse, hbody, hrole, hl, hw, ht, hn])⟩
              | ok newsOpt =>
                rw [generate_excuse_success_path w data role loc wea ti newsOpt
                  hbody hrole hl hw ht hn]
                refine ⟨rfl, ?_⟩
                intro sp hsp
                simp only [Except.ok.injEq, Payload.success.injEq] at hsp
                subst hsp
                rfl
  refine ⟨key.1, key.2, ?_, ?_⟩
  · intro h; simp [substitutedIp, h]
  · intro h; simp [substitutedIp, h]

/-- C6 witness: a loopback caller is geolocated as 8.8.8.8 and a
public caller is geolocated as itself. -/
theorem loopback_substitution_witness :
    (generate_excuse { baseWorld with clientHost := "127.0.0.1" }).2.ipQueried =
      some (substitutedIp "127.0.0.1") ∧
    substitutedIp "127.0.0.1" = "8.8.8.8" ∧
    (generate_excuse baseWorld).2.ipQueried = some (substitutedIp "1.2.3.4") ∧
    substitutedIp "1.2.3.4" = "1.2.3.4" :=
  ⟨(loopback_substitution { baseWorld with clientHost := "127.0.0.1" }
      sampleBody (.str "student") rfl rfl).1,
   (loopback_substitution { baseWorld with clientHost := "127.0.0.1" }
      sampleBody (.str "student") rfl rfl).2.2.1 (by rfl),
   (loopback_substitution baseWorld sampleBody (.str "student") rfl rfl).1,
   (loopback_substitution baseWorld sampleBody (.str "student") rfl rfl).2.2.2 (by rfl)⟩

end NoozGPT

namespace NoozGPT

/-- C2 counterexample: with a parsed body, a successful location and a
successful weather call, a transport failure of the news call aborts
the whole request with an unhandled exception (neither the error
payload nor the success payload is returned), refuting "no other
failure aborts the request". -/
theorem news_transport_failure_aborts_request :
    (generate_excuse { baseWorld with newsService := fun _ => .exn }).1 =
      .error .transportError ∧
    ∀ p : Payload,
      (generate_excuse { baseWorld with newsService := fun _ => .exn }).1 ≠ .ok p := by
  refine ⟨rfl, ?_⟩
  intro p h
  rw [show (generate_excuse { baseWorld with newsService := fun _ => .exn }).1 =
    .error .transportError from rfl] at h
  exact Except.noConfusion h

/-- C2 (amended): among the handled failure modes, "no location" and
"no weather" are the only hard stops: an absent location yields the
error payload and skips the weather, news and generation steps; an
absent weather result after a successful location yields the error
payload and skips the news and generation steps; and when geolocation,
weather, the timezone lookup and the news call return normally, the
request completes with the success payload regardless of a non-200
news status or a failing generative-model call.  A transport failure
or malformed body in any step, however, aborts the request as an
unhandled exception rather than an error payload. -/
theorem hard_stop_conditions (w : World) (data role : Json)
    (hbody : w.bodyJson = some data)
    (hrole : data.getD "role" (.str "someone") = .ok role) :
    (get_location_by_ip (w.locService (substitutedIp w.clientHost)) = .ok none →
      (generate_excuse w).1 =
        .ok (.errorPayload ("Could not determine location from IP: "
          ++ substitutedIp w.clientHost)) ∧
      (generate_excuse w).2.weatherCalled = false ∧
      (generate_excuse w).2.newsCalled = false ∧
      (generate_excuse w).2.genCalled = false) ∧
    (∀ loc : Location,
      get_location_by_ip (w.locService (substitutedIp w.clientHost)) = .ok (some loc) →
      get_weather (w.weatherService loc.lat loc.lon) = .ok none →
      (generate_excuse w).1 = .ok (.errorPayload "Could not fetch weather data") ∧
      (generate_excuse w).2.newsCalled = false ∧
      (generate_excuse w).2.genCalled = false) ∧
    (∀ (loc : Location) (wea : Weather) (ti : TimeContext)
        (newsOpt : Option (List NewsItem)),
      get_location_by_ip (w.locService (substitutedIp w.clientHost)) = .ok (some loc) →
      get_weather (w.weatherService loc.lat loc.lon) = .ok (some wea) →
      get_time_context w.lookupTz w.now defaultTimezone = .ok ti →
      get_news (w.newsService "us") = .ok newsOpt →
      ∃ sp : SuccessPayload, (generate_excuse w).1 = .ok (.success sp)) := by
  refine ⟨?_, ?_, ?_⟩
  · intro hl
    refine ⟨?_, ?_, ?_, ?_⟩ <;> simp [generate_excuse, hbody, hrole, hl, noCalls]
  · intro loc hl hw
    refine ⟨?_, ?_, ?_⟩ <;> simp [generate_excuse, hbody, hrole, hl, hw, noCalls]
  · intro loc wea ti newsOpt hl hw ht hn
    exact ⟨_, by
      rw [generate_excuse_success_path w data role loc wea ti newsOpt hbody hrole hl hw ht hn]⟩

/-- C2 witness: a failed geolocation status yields the location error
payload with no later step run; a non-200 weather response after a
successful location yields the weather error payload with no later
step run; and a fully successful pipeline yields the success
payload. -/
theorem hard_stop_conditions_witness :
    ((generate_excuse { baseWorld with
        locService := fun _ => .resp 200 (some (.obj [("status", .str "fail")])) }).1 =
      .ok (.errorPayload ("Could not determine location from IP: "
        ++ substitutedIp "1.2.3.4")) ∧
     (generate_excuse { baseWorld with
        locService := fun _ => .resp 200 (some (.obj [("status", .str "fail")])) }).2.weatherCalled
       = false ∧
     (generate_excuse { baseWorld with
        locService := fun _ => .resp 200 (some (.obj [("status", .str "fail")])) }).2.newsCalled
       = false ∧
     (generate_excuse { baseWorld with
        locService := fun _ => .resp 200 (some (.obj [("status", .str "fail")])) }).2.genCalled
       = false) ∧
    ((generate_excuse { baseWorld with weatherService := fun _ _ => .resp 500 none }).1 =
      .ok (.errorPayload "Could not fetch weather data") ∧
     (generate_excuse { baseWorld with
        weatherService := fun _ _ => .resp 500 none }).2.newsCalled = false ∧
     (generate_excuse { baseWorld with
        weatherService := fun _ _ => .resp 500 none }).2.genCalled = false) ∧
    (∃ sp : SuccessPayload, (generate_excuse baseWorld).1 = .ok (.success sp)) :=
  ⟨(hard_stop_conditions
      { baseWorld with
        locService := fun _ => .resp 200 (some (.obj [("status", .str "fail")])) }
      sampleBody (.str "student") rfl rfl).1 rfl,
   (hard_stop_conditions { baseWorld with weatherService := fun _ _ => .resp 500 none }
      sampleBody (.str "student") rfl rfl).2.1
      ⟨.str "Kochi", .str "Kerala", .str "India", .num "10.0", .num "76.2"⟩ rfl rfl,
   (hard_stop_conditions baseWorld sampleBody (.str "student") rfl rfl).2.2
      ⟨.str "Kochi", .str "Kerala", .str "India", .num "10.0", .num "76.2"⟩
      ⟨.str "Sunny", .num "30.0", .num "60", .num "10.0"⟩
      sampleTime (some []) rfl rfl rfl rfl⟩

end NoozGPT
